import Mathlib

/-!
Verification of the yueyue-painting gallery server (`src/server.js`).

The server is embedded shallowly:

* JS strings are Lean `String`s; the Node `path` helpers used by the code
  (`path.extname`, `path.basename(name, ext)`), the `String.prototype`
  operations (`toLowerCase`, `startsWith`, regexp suffix replacement) are
  given executable Lean counterparts operating on `String.data`.
* The uploads directory is an association list from filename to byte size
  (`Disk`); `fs.existsSync` / `fs.unlinkSync` / `fs.statSync(..).size` and
  the writes performed by the image pipeline become list operations.
* The metadata file `./data/paintings.json` is a `DataFile`: it is either
  missing, present but unparseable, or a stored list of records.
* Outcomes of the external image machinery (sharp, heic-decode, the `sips`
  system tool) and of `fs.writeFileSync` are oracle booleans in `ConvEnv` /
  `UploadEnv`; the byte size of a freshly encoded JPEG and the generated
  UUID / timestamp are oracle data.  A failed conversion is modelled as
  leaving its output absent.
* Every route handler is a function from the request data and the server
  state (disk + metadata file) to a `Response` and a new server state.
-/

namespace Gallery

/-! ### String helpers (Node `path` / JS string operations) -/

/-- JS `String.prototype.toLowerCase` (ASCII, which is all the code compares). -/
def lowerStr (s : String) : String := String.mk (s.data.map Char.toLower)

/-- JS `String.prototype.endsWith suffix` / an anchored `...$` regexp match. -/
def strEndsWith (suffix s : String) : Bool :=
  decide (s.data.reverse.take suffix.data.length = suffix.data.reverse)

/-- JS `String.prototype.startsWith pre`. -/
def strStartsWith (pre s : String) : Bool :=
  decide (s.data.take pre.data.length = pre.data)

/-- Drop the last `n` characters of a string. -/
def dropRightStr (s : String) (n : Nat) : String :=
  String.mk (s.data.take (s.data.length - n))

/-- Node `path.extname` for the plain (slash-free) names the server builds:
the suffix starting at the last dot, `""` when there is no dot or when the
only dot is the leading character of the name. -/
def extname (s : String) : String :=
  let cs := s.data
  let r := cs.reverse.findIdx (fun c => decide (c = '.'))
  if r < cs.length then
    let i := cs.length - 1 - r
    if i = 0 then "" else String.mk (cs.drop i)
  else ""

/-- Node `path.basename(s, path.extname(s))`: the name with its extension
removed (the server's filenames contain no directory separators). -/
def stripExtStr (s : String) : String := dropRightStr s (extname s).data.length

/-! ### Data model -/

/-- A metadata record (`newPainting` in `server.js`). -/
structure Painting where
  id : String
  filename : String
  originalName : String
  imageUrl : String
  date : String
  size : Nat
deriving DecidableEq

/-- The uploads directory: filenames with their on-disk byte sizes. -/
abbrev Disk := List (String × Nat)

/-- `fs.existsSync` within the uploads directory. -/
def Disk.existsSync (d : Disk) (name : String) : Bool :=
  d.any (fun e => decide (e.1 = name))

/-- `fs.unlinkSync` within the uploads directory. -/
def Disk.unlinkSync (d : Disk) (name : String) : Disk :=
  d.filter (fun e => decide (e.1 ≠ name))

/-- A write of `sz` bytes to `name` (overwriting any previous content). -/
def Disk.writeFile (d : Disk) (name : String) (sz : Nat) : Disk :=
  (name, sz) :: d.unlinkSync name

/-- `fs.statSync(name).size`, `none` when `statSync` would throw. -/
def Disk.statSize (d : Disk) (name : String) : Option Nat :=
  (d.find? (fun e => decide (e.1 = name))).map (·.2)

/-- The `if (fs.existsSync(p)) fs.unlinkSync(p)` cleanup pattern. -/
def Disk.removeIfExists (d : Disk) (name : String) : Disk :=
  if d.existsSync name then d.unlinkSync name else d

/-- The metadata file `./data/paintings.json`: absent, present but failing
`JSON.parse`, or holding a stored list of records. -/
inductive DataFile where
  | missing
  | corrupt
  | stored (ps : List Painting)
deriving DecidableEq

/-- `readPaintingsData` (`server.js` lines 35–45): parse the file when it
exists, swallow a read/parse error into `[]`; the file is never modified. -/
def readPaintingsData : DataFile → List Painting
  | .missing => []
  | .corrupt => []
  | .stored ps => ps

/-- `writePaintingsData` (lines 48–56): overwrite the whole collection,
reporting success; a thrown write error is caught and reported as `false`
(modelled as leaving the previous file intact). -/
def writePaintingsData (writeOk : Bool) (df : DataFile) (ps : List Painting) :
    Bool × DataFile :=
  if writeOk then (true, .stored ps) else (false, df)

/-- The server state visible to the handlers: the uploads directory and the
metadata file. -/
structure ServerState where
  disk : Disk
  df : DataFile
deriving DecidableEq

/-- An HTTP response of the JSON API. -/
inductive Response where
  | okPainting (p : Painting)
  | okMsg (msg : String)
  | badRequest (msg : String)
  | notFound (msg : String)
  | serverError (msg : String)
deriving DecidableEq

/-- The HTTP status code of a response. -/
def statusOf : Response → Nat
  | .okPainting _ => 200
  | .okMsg _ => 200
  | .badRequest _ => 400
  | .notFound _ => 404
  | .serverError _ => 500

/-! ### Ingest filter -/

/-- The file the multer middleware hands to the upload handler:
`originalname` is client-supplied, `filename` is the stored name
(`uuidv4() + path.extname(originalname)` in the source). -/
structure UploadedFile where
  originalname : String
  filename : String
deriving DecidableEq

/-- `isHeifFile` (lines 71–82).  Defined by the source but never called:
the multer `fileFilter` and the upload handler each re-implement their own
extension test inline. -/
def isHeifFile (filename mimetype : String) : Bool :=
  let ext := lowerStr (extname filename)
  let isHeifExt := decide (ext = ".heic") || decide (ext = ".heif")
  let isHeifMime := decide (mimetype ≠ "") &&
    (decide (mimetype = "image/heic") || decide (mimetype = "image/heif") ||
     decide (mimetype = "image/x-heic") || decide (mimetype = "image/x-heif"))
  isHeifExt || isHeifMime

/-- The multer `fileFilter` (lines 89–104): accept when the declared mime
type starts with `image/` or the original name's extension is `.heic` /
`.heif` (lower-cased). -/
def fileFilterAccepts (originalname mimetype : String) : Bool :=
  let ext := lowerStr (extname originalname)
  strStartsWith "image/" mimetype || decide (ext = ".heic") || decide (ext = ".heif")

/-! ### Image pipeline -/

/-- Oracle outcomes of the external image machinery for one upload. -/
structure ConvEnv where
  /-- the `heic-decode` + sharp primary HEIF path completes -/
  heicDecodeOk : Bool
  /-- `which sips` succeeds -/
  sipsAvailable : Bool
  /-- the `sips` conversion and the subsequent sharp optimization complete -/
  sipsOk : Bool
  /-- the general sharp raster re-encode completes -/
  sharpOk : Bool
  /-- byte size of a successfully produced JPEG -/
  outSize : Nat
deriving DecidableEq

/-- `convertHeifWithSystemTool` (lines 169–213): try `sips` then re-optimize
with sharp; any failure is caught and reported as `false`. -/
def convertHeifWithSystemTool (env : ConvEnv) (disk : Disk) (outputPath : String) :
    Bool × Disk :=
  if env.sipsAvailable then
    if env.sipsOk then (true, disk.writeFile outputPath env.outSize)
    else (false, disk)
  else (false, disk)

/-- `convertAndOptimizeImage` (lines 107–166): HEIF inputs go through
`heic-decode` + sharp, falling back to the system tool when that throws;
other inputs go through the general sharp pipeline; every error is caught
and reported as `false`. -/
def convertAndOptimizeImage (env : ConvEnv) (disk : Disk)
    (outputPath : String) (isHeif : Bool) : Bool × Disk :=
  if isHeif then
    if env.heicDecodeOk then (true, disk.writeFile outputPath env.outSize)
    else convertHeifWithSystemTool env disk outputPath
  else
    if env.sharpOk then (true, disk.writeFile outputPath env.outSize)
    else (false, disk)

/-! ### Upload handler -/

/-- Oracle data for one upload request. -/
structure UploadEnv where
  conv : ConvEnv
  /-- the `uuidv4()` drawn for the new record id -/
  newId : String
  /-- `new Date().toISOString()` -/
  now : String
  /-- `fs.writeFileSync` of the metadata file completes -/
  writeOk : Bool
deriving DecidableEq

/-- The upload handler's HEIC test (lines 243–245): extension of the
original name or of the stored name is `.heic` / `.heif`. -/
def isHeicUpload (f : UploadedFile) : Bool :=
  let originalNameExt := lowerStr (extname f.originalname)
  let originalExt := lowerStr (extname f.filename)
  decide (originalNameExt = ".heic") || decide (originalNameExt = ".heif") ||
  decide (originalExt = ".heic") || decide (originalExt = ".heif")

/-- The regexp replacement `filename.replace(/\.(png|gif|bmp|webp)$/i, ".jpg")`
(line 281). -/
def replaceRasterExt (filename : String) : String :=
  let l := lowerStr filename
  if strEndsWith ".png" l || strEndsWith ".gif" l || strEndsWith ".bmp" l then
    dropRightStr filename 4 ++ ".jpg"
  else if strEndsWith ".webp" l then
    dropRightStr filename 5 ++ ".jpg"
  else filename

/-- Whether the stored name carries one of the non-JPEG raster extensions the
regexp on line 281 matches. -/
def hasRasterExt (filename : String) : Bool :=
  let l := lowerStr filename
  strEndsWith ".png" l || strEndsWith ".gif" l || strEndsWith ".bmp" l ||
    strEndsWith ".webp" l

/-- Lines 301–330 of the upload handler: `fs.statSync` on the final file
(its failure lands in the handler's outer catch, which removes
`req.file.path` and answers 500), record construction, append, persist, and
the cleanup of the final file when persisting fails. -/
def createRecordAndPersist (env : UploadEnv) (f : UploadedFile)
    (finalFilename : String) (disk : Disk) (df : DataFile) :
    Response × ServerState :=
  match disk.statSize finalFilename with
  | some sz =>
    let newPainting : Painting :=
      { id := env.newId, filename := finalFilename, originalName := f.originalname,
        imageUrl := "/uploads/" ++ finalFilename, date := env.now, size := sz }
    let paintings := readPaintingsData df
    let w := writePaintingsData env.writeOk df (paintings ++ [newPainting])
    if w.1 then (.okPainting newPainting, ⟨disk, w.2⟩)
    else (.serverError "保存画作信息失败", ⟨disk.removeIfExists finalFilename, w.2⟩)
  | none =>
    (.serverError "上传失败", ⟨disk.removeIfExists f.filename, df⟩)

/-- `app.post('/api/upload')` (lines 231–342). -/
def uploadHandler (env : UploadEnv) (file : Option UploadedFile) (s : ServerState) :
    Response × ServerState :=
  match file with
  | none => (.badRequest "请选择要上传的图片文件", s)
  | some f =>
    if isHeicUpload f then
      let jpegFilename := stripExtStr f.filename ++ ".jpg"
      let r := convertAndOptimizeImage env.conv s.disk jpegFilename true
      let disk1 := r.2.removeIfExists f.filename
      if r.1 then createRecordAndPersist env f jpegFilename disk1 s.df
      else (.serverError "HEIF 文件转换失败", ⟨disk1, s.df⟩)
    else
      let optimizedFilename := replaceRasterExt f.filename
      if optimizedFilename = f.filename then
        createRecordAndPersist env f f.filename s.disk s.df
      else
        let r := convertAndOptimizeImage env.conv s.disk optimizedFilename false
        if r.1 then
          createRecordAndPersist env f optimizedFilename (r.2.removeIfExists f.filename) s.df
        else
          createRecordAndPersist env f f.filename r.2 s.df

/-- The route `POST /api/upload` as seen from outside: the multer filter
runs first; its rejection is a plain `Error` (not a `MulterError`), so the
error middleware (lines 463–472) falls through to the generic 500 answer
and the handler never runs. -/
def ingestAndUpload (env : UploadEnv) (mimetype : String) (f : UploadedFile)
    (s : ServerState) : Response × ServerState :=
  if fileFilterAccepts f.originalname mimetype then uploadHandler env (some f) s
  else (.serverError "服务器内部错误", s)

/-! ### Delete / get / update handlers -/

/-- `app.delete('/api/paintings/:id')` (lines 345–382). -/
def deleteHandler (writeOk : Bool) (pid : String) (s : ServerState) :
    Response × ServerState :=
  let paintings := readPaintingsData s.df
  let idx := paintings.findIdx (fun p => decide (p.id = pid))
  if h : idx < paintings.length then
    let painting := paintings.get ⟨idx, h⟩
    let disk1 := s.disk.removeIfExists painting.filename
    let w := writePaintingsData writeOk s.df (paintings.eraseIdx idx)
    if w.1 then (.okMsg "画作删除成功", ⟨disk1, w.2⟩)
    else (.serverError "删除画作信息失败", ⟨disk1, w.2⟩)
  else (.notFound "画作不存在", s)

/-- `app.get('/api/paintings/:id')` (lines 385–402); reads only. -/
def getPaintingHandler (pid : String) (s : ServerState) : Response :=
  match (readPaintingsData s.df).find? (fun p => decide (p.id = pid)) with
  | none => .notFound "画作不存在"
  | some p => .okPainting p

/-- The `if (date) paintings[paintingIndex].date = date` step of the update
handler: a missing or falsy (empty) `date` leaves the record unchanged. -/
def putUpdated (date : Option String) (current : Painting) : Painting :=
  match date with
  | some d => if d = "" then current else { current with date := d }
  | none => current

/-- `app.put('/api/paintings/:id')` (lines 405–436): update `date` only,
and only when the supplied value is truthy. -/
def putHandler (writeOk : Bool) (pid : String) (date : Option String)
    (s : ServerState) : Response × ServerState :=
  let paintings := readPaintingsData s.df
  let idx := paintings.findIdx (fun p => decide (p.id = pid))
  if h : idx < paintings.length then
    let updated := putUpdated date (paintings.get ⟨idx, h⟩)
    let w := writePaintingsData writeOk s.df (paintings.set idx updated)
    if w.1 then (.okPainting updated, ⟨s.disk, w.2⟩)
    else (.serverError "更新画作信息失败", ⟨s.disk, w.2⟩)
  else (.notFound "画作不存在", s)

/-- The data-model invariant of spec §3: every persisted record's `filename`
refers to an existing file in the uploads directory. -/
def filesIntact (s : ServerState) : Bool :=
  (readPaintingsData s.df).all (fun p => s.disk.existsSync p.filename)

/-- Modelled from the spec: the extensions the specification treats as
recognized image file extensions — the raster set it names in §4.2 (PNG,
GIF, BMP, WEBP), JPEG itself, and HEIC/HEIF ("including HEIC/HEIF" in
§4.1).  Used only to compare the spec's ingest-filter wording with the
code's `fileFilterAccepts`. -/
def specRecognizedImageExt (ext : String) : Bool :=
  decide (ext = ".png") || decide (ext = ".gif") || decide (ext = ".bmp") ||
  decide (ext = ".webp") || decide (ext = ".jpg") || decide (ext = ".jpeg") ||
  decide (ext = ".heic") || decide (ext = ".heif")

/-! ### Basic facts about the disk model -/

theorem existsSync_unlinkSync_self (d : Disk) (n : String) :
    (d.unlinkSync n).existsSync n = false := by
  simp [Disk.unlinkSync, Disk.existsSync]

theorem existsSync_unlinkSync_ne (d : Disk) {m n : String} (h : m ≠ n) :
    (d.unlinkSync n).existsSync m = d.existsSync m := by
  simp only [Disk.unlinkSync, Disk.existsSync, List.any_filter]
  congr 1
  funext e
  by_cases he : e.1 = m
  · subst he
    simp [h]
  · simp [he]

theorem existsSync_removeIfExists_self (d : Disk) (n : String) :
    (d.removeIfExists n).existsSync n = false := by
  unfold Disk.removeIfExists
  by_cases h : d.existsSync n
  · simp [h, existsSync_unlinkSync_self]
  · simp only [Bool.not_eq_true] at h
    simp [h]

theorem existsSync_removeIfExists_ne (d : Disk) {m n : String} (h : m ≠ n) :
    (d.removeIfExists n).existsSync m = d.existsSync m := by
  unfold Disk.removeIfExists
  by_cases hd : d.existsSync n <;> simp [hd, existsSync_unlinkSync_ne d h]

theorem existsSync_writeFile_self (d : Disk) (n : String) (sz : Nat) :
    (d.writeFile n sz).existsSync n = true := by
  simp [Disk.writeFile, Disk.existsSync]

theorem existsSync_cons (e : String × Nat) (d : Disk) (m : String) :
    Disk.existsSync (e :: d) m = (decide (e.1 = m) || d.existsSync m) := by
  simp [Disk.existsSync]

theorem existsSync_writeFile_mono (d : Disk) {m : String} (n : String) (sz : Nat)
    (h : d.existsSync m = true) : (d.writeFile n sz).existsSync m = true := by
  by_cases hmn : m = n
  · subst hmn
    exact existsSync_writeFile_self d m sz
  · unfold Disk.writeFile
    rw [existsSync_cons, existsSync_unlinkSync_ne d hmn, h, Bool.or_true]

theorem existsSync_of_statSize (d : Disk) {n : String} {sz : Nat}
    (h : d.statSize n = some sz) : d.existsSync n = true := by
  unfold Disk.statSize at h
  cases hf : d.find? (fun e => decide (e.1 = n)) with
  | none => rw [hf] at h; simp at h
  | some e =>
    have hmem := List.mem_of_find?_eq_some hf
    have hp := List.find?_some hf
    simp only [decide_eq_true_eq] at hp
    simp only [Disk.existsSync, List.any_eq_true]
    exact ⟨e, hmem, by simp [hp]⟩

theorem statSize_writeFile_self (d : Disk) (n : String) (sz : Nat) :
    (d.writeFile n sz).statSize n = some sz := by
  simp [Disk.writeFile, Disk.statSize]

theorem statSize_unlinkSync_ne (d : Disk) {m n : String} (h : m ≠ n) :
    (d.unlinkSync n).statSize m = d.statSize m := by
  simp only [Disk.unlinkSync, Disk.statSize, List.find?_filter]
  congr 2
  funext e
  by_cases he : e.1 = m
  · subst he
    simp [h]
  · simp [he]

theorem statSize_removeIfExists_ne (d : Disk) {m n : String} (h : m ≠ n) :
    (d.removeIfExists n).statSize m = d.statSize m := by
  unfold Disk.removeIfExists
  by_cases hd : d.existsSync n <;> simp [hd, statSize_unlinkSync_ne d h]

/-! ### String facts about the raster-extension replacement -/

theorem data_mk (l : List Char) : (String.mk l).data = l := rfl

theorem take4_reverse_lower_append_jpg (x : String) :
    (lowerStr (x ++ ".jpg")).data.reverse.take 4 = ['g', 'p', 'j', '.'] := by
  show ((x ++ ".jpg").data.map Char.toLower).reverse.take 4 = _
  rw [String.data_append, show (".jpg".data : List Char) = ['.', 'j', 'p', 'g'] from rfl,
    List.map_append, List.reverse_append]
  rw [List.take_left' (by decide)]
  decide

theorem not_ends_jpg_of_ends (suf : String) (hlen : suf.data.length = 4)
    (hne : suf.data.reverse ≠ ['g', 'p', 'j', '.']) {s x : String}
    (hsuf : strEndsWith suf (lowerStr s) = true) (heq : x ++ ".jpg" = s) : False := by
  have hjpg := take4_reverse_lower_append_jpg x
  rw [heq] at hjpg
  simp only [strEndsWith, decide_eq_true_eq, hlen] at hsuf
  rw [hjpg] at hsuf
  exact hne hsuf.symm

theorem webp_of_raster_not_first {s : String} (h : hasRasterExt s = true)
    (c1 : ¬(strEndsWith ".png" (lowerStr s) || strEndsWith ".gif" (lowerStr s) ||
        strEndsWith ".bmp" (lowerStr s)) = true) :
    strEndsWith ".webp" (lowerStr s) = true := by
  simp only [hasRasterExt, Bool.or_eq_true] at h
  simp only [Bool.or_eq_true, not_or] at c1
  rcases h with ((h | h) | h) | h
  · exact absurd h c1.1.1
  · exact absurd h c1.1.2
  · exact absurd h c1.2
  · exact h

theorem replaceRasterExt_of_not_raster {s : String} (h : hasRasterExt s = false) :
    replaceRasterExt s = s := by
  simp only [hasRasterExt, Bool.or_eq_false_iff] at h
  simp [replaceRasterExt, h.1.1.1, h.1.1.2, h.1.2, h.2]

theorem replaceRasterExt_ends_jpg {s : String} (h : hasRasterExt s = true) :
    ∃ b, replaceRasterExt s = b ++ ".jpg" := by
  simp only [replaceRasterExt]
  by_cases c1 : (strEndsWith ".png" (lowerStr s) || strEndsWith ".gif" (lowerStr s) ||
      strEndsWith ".bmp" (lowerStr s)) = true
  · rw [if_pos c1]
    exact ⟨_, rfl⟩
  · rw [if_neg c1, if_pos (webp_of_raster_not_first h c1)]
    exact ⟨_, rfl⟩

theorem replaceRasterExt_ne_of_raster {s : String} (h : hasRasterExt s = true) :
    replaceRasterExt s ≠ s := by
  intro heq
  simp only [replaceRasterExt] at heq
  by_cases c1 : (strEndsWith ".png" (lowerStr s) || strEndsWith ".gif" (lowerStr s) ||
      strEndsWith ".bmp" (lowerStr s)) = true
  · rw [if_pos c1] at heq
    rw [Bool.or_eq_true, Bool.or_eq_true] at c1
    rcases c1 with (c | c) | c
    · exact not_ends_jpg_of_ends ".png" (by decide) (by decide) c heq
    · exact not_ends_jpg_of_ends ".gif" (by decide) (by decide) c heq
    · exact not_ends_jpg_of_ends ".bmp" (by decide) (by decide) c heq
  · have c2 := webp_of_raster_not_first h c1
    rw [if_neg c1, if_pos c2] at heq
    have hlen5 : 5 ≤ s.data.length := by
      simp only [strEndsWith, decide_eq_true_eq] at c2
      have hl := congrArg List.length c2
      simp only [List.length_take, List.length_reverse, List.length_cons,
        List.length_nil] at hl
      have : (lowerStr s).data.length = s.data.length := by
        show (s.data.map Char.toLower).length = s.data.length
        exact List.length_map s.data Char.toLower
      rw [this] at hl
      omega
    have hlen : s.data.length = (s.data.length - 5) + 4 := by
      have hl := congrArg (fun t => t.data.length) heq
      simp only [String.data_append, List.length_append, dropRightStr, data_mk,
        List.length_take] at hl
      rw [show ((".jpg".data : List Char)).length = 4 from by decide] at hl
      omega
    omega

/-! ### List facts used by delete and update -/

theorem set_get_self {α : Type} : ∀ (l : List α) (i : Nat) (h : i < l.length),
    l.set i (l.get ⟨i, h⟩) = l
  | _ :: _, 0, _ => rfl
  | a :: t, i + 1, h => congrArg (a :: ·) (set_get_self t i (Nat.lt_of_succ_lt_succ h))

theorem map_nodup_eraseIdx_ne {α β : Type} (f : α → β) :
    ∀ (l : List α) (i : Nat) (h : i < l.length), (l.map f).Nodup →
      ∀ x ∈ l.eraseIdx i, f x ≠ f (l.get ⟨i, h⟩)
  | a :: t, 0, _ => by
    intro hnd x hx
    rw [List.map_cons, List.nodup_cons] at hnd
    simp only [List.eraseIdx_zero, List.tail_cons] at hx
    intro he
    have he2 : f x = f a := he
    apply hnd.1
    rw [← he2]
    exact List.mem_map_of_mem f hx
  | a :: t, i + 1, h => by
    intro hnd x hx
    rw [List.map_cons, List.nodup_cons] at hnd
    have hget : (a :: t).get ⟨i + 1, h⟩ = t.get ⟨i, Nat.lt_of_succ_lt_succ h⟩ := rfl
    rw [hget]
    rw [show (a :: t).eraseIdx (i + 1) = a :: t.eraseIdx i from rfl] at hx
    rcases List.mem_cons.mp hx with rfl | hx2
    · intro he
      apply hnd.1
      rw [he]
      exact List.mem_map_of_mem f (List.get_mem t i _)
    · exact map_nodup_eraseIdx_ne f t i (Nat.lt_of_succ_lt_succ h) hnd.2 x hx2

/-! ### Facts about the conversion pipeline -/

theorem conv_snd_of_true (env : ConvEnv) (d : Disk) (out : String) (b : Bool)
    (h : (convertAndOptimizeImage env d out b).1 = true) :
    (convertAndOptimizeImage env d out b).2 = d.writeFile out env.outSize := by
  unfold convertAndOptimizeImage convertHeifWithSystemTool at h ⊢
  cases b <;> cases hs : env.sharpOk <;> cases hh : env.heicDecodeOk <;>
    cases ha : env.sipsAvailable <;> cases ho : env.sipsOk <;> simp_all

theorem conv_snd_of_false (env : ConvEnv) (d : Disk) (out : String) (b : Bool)
    (h : (convertAndOptimizeImage env d out b).1 = false) :
    (convertAndOptimizeImage env d out b).2 = d := by
  unfold convertAndOptimizeImage convertHeifWithSystemTool at h ⊢
  cases b <;> cases hs : env.sharpOk <;> cases hh : env.heicDecodeOk <;>
    cases ha : env.sipsAvailable <;> cases ho : env.sipsOk <;> simp_all

theorem conv_raster_true (env : ConvEnv) (d : Disk) (out : String)
    (h : env.sharpOk = true) :
    convertAndOptimizeImage env d out false = (true, d.writeFile out env.outSize) := by
  simp [convertAndOptimizeImage, h]

theorem conv_raster_false (env : ConvEnv) (d : Disk) (out : String)
    (h : env.sharpOk = false) :
    convertAndOptimizeImage env d out false = (false, d) := by
  simp [convertAndOptimizeImage, h]

theorem conv_heif_fallback_fails (env : ConvEnv) (d : Disk) (out : String)
    (hdec : env.heicDecodeOk = false)
    (hsys : env.sipsAvailable = false ∨ env.sipsOk = false) :
    convertAndOptimizeImage env d out true = (false, d) := by
  unfold convertAndOptimizeImage convertHeifWithSystemTool
  rcases hsys with h | h <;> cases ha : env.sipsAvailable <;>
    cases ho : env.sipsOk <;> simp_all

/-! ### Facts about record creation and persistence -/

theorem createRecordAndPersist_ok (env : UploadEnv) (f : UploadedFile)
    (final : String) (disk : Disk) (df : DataFile) (sz : Nat)
    (hsz : disk.statSize final = some sz) (hw : env.writeOk = true) :
    createRecordAndPersist env f final disk df =
      (.okPainting ⟨env.newId, final, f.originalname, "/uploads/" ++ final, env.now, sz⟩,
       ⟨disk, .stored (readPaintingsData df ++
         [⟨env.newId, final, f.originalname, "/uploads/" ++ final, env.now, sz⟩])⟩) := by
  unfold createRecordAndPersist writePaintingsData
  rw [hsz]
  simp [hw]

theorem createRecordAndPersist_writeFail (env : UploadEnv) (f : UploadedFile)
    (final : String) (disk : Disk) (df : DataFile) (sz : Nat)
    (hsz : disk.statSize final = some sz) (hw : env.writeOk = false) :
    createRecordAndPersist env f final disk df =
      (.serverError "保存画作信息失败", ⟨disk.removeIfExists final, df⟩) := by
  unfold createRecordAndPersist writePaintingsData
  rw [hsz]
  simp [hw]

theorem createRecordAndPersist_statFail (env : UploadEnv) (f : UploadedFile)
    (final : String) (disk : Disk) (df : DataFile)
    (hsz : disk.statSize final = none) :
    createRecordAndPersist env f final disk df =
      (.serverError "上传失败", ⟨disk.removeIfExists f.filename, df⟩) := by
  unfold createRecordAndPersist
  rw [hsz]

theorem createRecordAndPersist_ok_inv (env : UploadEnv) (f : UploadedFile)
    (final : String) (disk : Disk) (df : DataFile) (p : Painting)
    (h : (createRecordAndPersist env f final disk df).1 = .okPainting p) :
    p.filename = final ∧ disk.statSize final = some p.size ∧
      (createRecordAndPersist env f final disk df).2 =
        ⟨disk, .stored (readPaintingsData df ++ [p])⟩ := by
  cases hsz : disk.statSize final with
  | none => rw [createRecordAndPersist_statFail env f final disk df hsz] at h; exact absurd h (by simp)
  | some sz =>
    cases hw : env.writeOk with
    | false => rw [createRecordAndPersist_writeFail env f final disk df sz hsz hw] at h
               exact absurd h (by simp)
    | true =>
      rw [createRecordAndPersist_ok env f final disk df sz hsz hw] at h ⊢
      simp only [Response.okPainting.injEq] at h
      subst h
      exact ⟨rfl, by simp [hsz], rfl⟩

theorem createRecordAndPersist_df_writeFail (env : UploadEnv) (f : UploadedFile)
    (final : String) (disk : Disk) (df : DataFile) (hw : env.writeOk = false) :
    statusOf (createRecordAndPersist env f final disk df).1 = 500 ∧
      (createRecordAndPersist env f final disk df).2.df = df := by
  cases hsz : disk.statSize final with
  | none => rw [createRecordAndPersist_statFail env f final disk df hsz]; exact ⟨rfl, rfl⟩
  | some sz => rw [createRecordAndPersist_writeFail env f final disk df sz hsz hw]; exact ⟨rfl, rfl⟩

/-! ### Branch unfoldings of the upload handler -/

theorem uploadHandler_heic_convOk (env : UploadEnv) (f : UploadedFile) (s : ServerState)
    (hh : isHeicUpload f = true) (d2 : Disk)
    (hc : convertAndOptimizeImage env.conv s.disk (stripExtStr f.filename ++ ".jpg") true
      = (true, d2)) :
    uploadHandler env (some f) s =
      createRecordAndPersist env f (stripExtStr f.filename ++ ".jpg")
        (d2.removeIfExists f.filename) s.df := by
  simp only [uploadHandler, hh, if_true, hc]

theorem uploadHandler_heic_convFail (env : UploadEnv) (f : UploadedFile) (s : ServerState)
    (hh : isHeicUpload f = true) (d2 : Disk)
    (hc : convertAndOptimizeImage env.conv s.disk (stripExtStr f.filename ++ ".jpg") true
      = (false, d2)) :
    uploadHandler env (some f) s =
      (.serverError "HEIF 文件转换失败", ⟨d2.removeIfExists f.filename, s.df⟩) := by
  simp only [uploadHandler, hh, if_true, hc]
  rfl

theorem uploadHandler_noRaster (env : UploadEnv) (f : UploadedFile) (s : ServerState)
    (hh : isHeicUpload f = false) (hr : replaceRasterExt f.filename = f.filename) :
    uploadHandler env (some f) s = createRecordAndPersist env f f.filename s.disk s.df := by
  simp only [uploadHandler, hh, Bool.false_eq_true, if_false, hr, if_pos]

theorem uploadHandler_raster_convOk (env : UploadEnv) (f : UploadedFile) (s : ServerState)
    (hh : isHeicUpload f = false) (hr : replaceRasterExt f.filename ≠ f.filename) (d2 : Disk)
    (hc : convertAndOptimizeImage env.conv s.disk (replaceRasterExt f.filename) false
      = (true, d2)) :
    uploadHandler env (some f) s =
      createRecordAndPersist env f (replaceRasterExt f.filename)
        (d2.removeIfExists f.filename) s.df := by
  simp only [uploadHandler, hh, Bool.false_eq_true, if_false, hc]
  rw [if_neg hr]
  simp

theorem uploadHandler_raster_convFail (env : UploadEnv) (f : UploadedFile) (s : ServerState)
    (hh : isHeicUpload f = false) (hr : replaceRasterExt f.filename ≠ f.filename) (d2 : Disk)
    (hc : convertAndOptimizeImage env.conv s.disk (replaceRasterExt f.filename) false
      = (false, d2)) :
    uploadHandler env (some f) s = createRecordAndPersist env f f.filename d2 s.df := by
  simp only [uploadHandler, hh, Bool.false_eq_true, if_false, hc]
  rw [if_neg hr]

/-! ### Branch unfoldings of the delete and update handlers -/

theorem conv_pair_true (env : ConvEnv) (d : Disk) (out : String) (b : Bool) (d2 : Disk)
    (hc : convertAndOptimizeImage env d out b = (true, d2)) :
    d2 = d.writeFile out env.outSize := by
  have h1 : (convertAndOptimizeImage env d out b).1 = true := by rw [hc]
  have h2 := conv_snd_of_true env d out b h1
  rw [hc] at h2
  exact h2

theorem conv_pair_false (env : ConvEnv) (d : Disk) (out : String) (b : Bool) (d2 : Disk)
    (hc : convertAndOptimizeImage env d out b = (false, d2)) :
    d2 = d := by
  have h1 : (convertAndOptimizeImage env d out b).1 = false := by rw [hc]
  have h2 := conv_snd_of_false env d out b h1
  rw [hc] at h2
  exact h2

theorem deleteHandler_notFound (w : Bool) (pid : String) (s : ServerState)
    (h : ¬ (readPaintingsData s.df).findIdx (fun p => decide (p.id = pid))
        < (readPaintingsData s.df).length) :
    deleteHandler w pid s = (.notFound "画作不存在", s) := by
  unfold deleteHandler
  rw [dif_neg h]

theorem deleteHandler_found_true (pid : String) (s : ServerState)
    (h : (readPaintingsData s.df).findIdx (fun p => decide (p.id = pid))
        < (readPaintingsData s.df).length) :
    deleteHandler true pid s =
      (.okMsg "画作删除成功",
       ⟨s.disk.removeIfExists ((readPaintingsData s.df).get
          ⟨(readPaintingsData s.df).findIdx (fun p => decide (p.id = pid)), h⟩).filename,
        .stored ((readPaintingsData s.df).eraseIdx
          ((readPaintingsData s.df).findIdx (fun p => decide (p.id = pid))))⟩) := by
  unfold deleteHandler
  rw [dif_pos h]
  simp [writePaintingsData]

theorem deleteHandler_found_false (pid : String) (s : ServerState)
    (h : (readPaintingsData s.df).findIdx (fun p => decide (p.id = pid))
        < (readPaintingsData s.df).length) :
    deleteHandler false pid s =
      (.serverError "删除画作信息失败",
       ⟨s.disk.removeIfExists ((readPaintingsData s.df).get
          ⟨(readPaintingsData s.df).findIdx (fun p => decide (p.id = pid)), h⟩).filename,
        s.df⟩) := by
  unfold deleteHandler
  rw [dif_pos h]
  simp [writePaintingsData]

theorem putHandler_notFound (w : Bool) (pid : String) (d : Option String) (s : ServerState)
    (h : ¬ (readPaintingsData s.df).findIdx (fun p => decide (p.id = pid))
        < (readPaintingsData s.df).length) :
    putHandler w pid d s = (.notFound "画作不存在", s) := by
  unfold putHandler
  rw [dif_neg h]

theorem putHandler_found_true (pid : String) (d : Option String) (s : ServerState)
    (h : (readPaintingsData s.df).findIdx (fun p => decide (p.id = pid))
        < (readPaintingsData s.df).length) :
    putHandler true pid d s =
      (.okPainting (putUpdated d ((readPaintingsData s.df).get
          ⟨(readPaintingsData s.df).findIdx (fun p => decide (p.id = pid)), h⟩)),
       ⟨s.disk, .stored ((readPaintingsData s.df).set
          ((readPaintingsData s.df).findIdx (fun p => decide (p.id = pid)))
          (putUpdated d ((readPaintingsData s.df).get
            ⟨(readPaintingsData s.df).findIdx (fun p => decide (p.id = pid)), h⟩)))⟩) := by
  unfold putHandler
  rw [dif_pos h]
  simp [writePaintingsData]

theorem putHandler_found_false (pid : String) (d : Option String) (s : ServerState)
    (h : (readPaintingsData s.df).findIdx (fun p => decide (p.id = pid))
        < (readPaintingsData s.df).length) :
    putHandler false pid d s = (.serverError "更新画作信息失败", ⟨s.disk, s.df⟩) := by
  unfold putHandler
  rw [dif_pos h]
  simp [writePaintingsData]

/-- The filename of a record is untouched by the date update. -/
theorem putUpdated_filename (d : Option String) (p : Painting) :
    (putUpdated d p).filename = p.filename := by
  unfold putUpdated
  cases d with
  | none => rfl
  | some dd => by_cases hd : dd = "" <;> simp [hd]

/-- Persisting a fresh record keeps every old record backed by a file, as
long as the old filenames are distinct from the names the handler may
write or unlink. -/
theorem createRecordAndPersist_intact (env : UploadEnv) (f : UploadedFile)
    (final : String) (disk : Disk) (df : DataFile)
    (hex : ∀ p ∈ readPaintingsData df, disk.existsSync p.filename = true)
    (hfinal : ∀ p ∈ readPaintingsData df, p.filename ≠ final)
    (horig : ∀ p ∈ readPaintingsData df, p.filename ≠ f.filename) :
    filesIntact (createRecordAndPersist env f final disk df).2 = true := by
  cases hsz : disk.statSize final with
  | none =>
    rw [createRecordAndPersist_statFail env f final disk df hsz]
    simp only [filesIntact, List.all_eq_true]
    intro p hp
    rw [existsSync_removeIfExists_ne disk (horig p hp)]
    exact hex p hp
  | some sz =>
    cases hw : env.writeOk with
    | true =>
      rw [createRecordAndPersist_ok env f final disk df sz hsz hw]
      simp only [filesIntact, List.all_eq_true]
      intro p hp
      rcases List.mem_append.mp hp with hp | hp
      · exact hex p hp
      · rw [List.mem_singleton] at hp
        subst hp
        exact existsSync_of_statSize disk hsz
    | false =>
      rw [createRecordAndPersist_writeFail env f final disk df sz hsz hw]
      simp only [filesIntact, List.all_eq_true]
      intro p hp
      rw [existsSync_removeIfExists_ne disk (hfinal p hp)]
      exact hex p hp

/-! ## Claim theorems -/

/-- C8: `readPaintingsData` returns the empty collection for a missing
metadata file and for one whose contents fail to parse, and returns the
stored collection when the file exists and parses; as a pure function of
the file state it neither throws nor deletes the file. -/
theorem C8_load_tolerates_missing_and_corrupt :
    readPaintingsData .missing = [] ∧ readPaintingsData .corrupt = [] ∧
      ∀ ps : List Painting, readPaintingsData (.stored ps) = ps :=
  ⟨rfl, rfl, fun _ => rfl⟩

/-- C3: for an accepted HEIC/HEIF upload on which the primary heic-decode
path throws and the system-tool fallback is unavailable or fails, the
request is answered 500 with the HEIF-conversion-failure error, the
ingested temp file is removed from disk, and no metadata record is
created. -/
theorem C3_heif_conversion_failure (env : UploadEnv) (f : UploadedFile) (s : ServerState)
    (hh : isHeicUpload f = true) (hdec : env.conv.heicDecodeOk = false)
    (hsys : env.conv.sipsAvailable = false ∨ env.conv.sipsOk = false) :
    (uploadHandler env (some f) s).1 = .serverError "HEIF 文件转换失败" ∧
      statusOf (uploadHandler env (some f) s).1 = 500 ∧
      (uploadHandler env (some f) s).2.disk.existsSync f.filename = false ∧
      (uploadHandler env (some f) s).2.df = s.df := by
  have hc := conv_heif_fallback_fails env.conv s.disk (stripExtStr f.filename ++ ".jpg")
    hdec hsys
  rw [uploadHandler_heic_convFail env f s hh s.disk hc]
  exact ⟨rfl, rfl, existsSync_removeIfExists_self s.disk f.filename, rfl⟩

theorem C3_witness :
    (uploadHandler ⟨⟨false, false, false, true, 7⟩, "id3", "t3", true⟩
        (some ⟨"a.heic", "u3.heic"⟩) ⟨[("u3.heic", 100)], .stored []⟩).1
      = .serverError "HEIF 文件转换失败" ∧
    statusOf (uploadHandler ⟨⟨false, false, false, true, 7⟩, "id3", "t3", true⟩
        (some ⟨"a.heic", "u3.heic"⟩) ⟨[("u3.heic", 100)], .stored []⟩).1 = 500 ∧
    (uploadHandler ⟨⟨false, false, false, true, 7⟩, "id3", "t3", true⟩
        (some ⟨"a.heic", "u3.heic"⟩) ⟨[("u3.heic", 100)], .stored []⟩).2.disk.existsSync
      "u3.heic" = false ∧
    (uploadHandler ⟨⟨false, false, false, true, 7⟩, "id3", "t3", true⟩
        (some ⟨"a.heic", "u3.heic"⟩) ⟨[("u3.heic", 100)], .stored []⟩).2.df
      = DataFile.stored [] :=
  C3_heif_conversion_failure ⟨⟨false, false, false, true, 7⟩, "id3", "t3", true⟩
    ⟨"a.heic", "u3.heic"⟩ ⟨[("u3.heic", 100)], .stored []⟩ (by decide) rfl (Or.inl rfl)

/-- C1 counterexample: an accepted PNG upload whose general sharp re-encode
fails is answered 200 with success, the ingested file stays on disk under
its original name, and a metadata record is created for it — not answered
500 with the file removed and no record, as the claim states. -/
theorem C1_counterexample :
    (uploadHandler ⟨⟨true, false, false, false, 7⟩, "id1", "t1", true⟩
        (some ⟨"a.png", "u1.png"⟩) ⟨[("u1.png", 100)], .stored []⟩).1
      = .okPainting ⟨"id1", "u1.png", "a.png", "/uploads/u1.png", "t1", 100⟩ ∧
    statusOf (uploadHandler ⟨⟨true, false, false, false, 7⟩, "id1", "t1", true⟩
        (some ⟨"a.png", "u1.png"⟩) ⟨[("u1.png", 100)], .stored []⟩).1 = 200 ∧
    (uploadHandler ⟨⟨true, false, false, false, 7⟩, "id1", "t1", true⟩
        (some ⟨"a.png", "u1.png"⟩) ⟨[("u1.png", 100)], .stored []⟩).2.disk.existsSync
      "u1.png" = true ∧
    readPaintingsData (uploadHandler ⟨⟨true, false, false, false, 7⟩, "id1", "t1", true⟩
        (some ⟨"a.png", "u1.png"⟩) ⟨[("u1.png", 100)], .stored []⟩).2.df
      = [⟨"id1", "u1.png", "a.png", "/uploads/u1.png", "t1", 100⟩] := by
  decide

/-- C1 amended: for an accepted non-HEIF upload with a PNG/GIF/BMP/WEBP
extension whose re-encode through the general raster pipeline fails
(convertAndOptimizeImage returns failure), the handler silently keeps the
original ingested file under its original name, creates a metadata record
for it, and — when persistence succeeds — answers with success; the
ingested file is not removed and no 500 is returned. -/
theorem C1_amended_raster_failure_keeps_original (env : UploadEnv) (f : UploadedFile)
    (s : ServerState) (sz : Nat)
    (hh : isHeicUpload f = false) (hraster : hasRasterExt f.filename = true)
    (hsharp : env.conv.sharpOk = false) (hw : env.writeOk = true)
    (hsz : s.disk.statSize f.filename = some sz) :
    uploadHandler env (some f) s =
      (.okPainting ⟨env.newId, f.filename, f.originalname,
          "/uploads/" ++ f.filename, env.now, sz⟩,
       ⟨s.disk, .stored (readPaintingsData s.df ++
         [⟨env.newId, f.filename, f.originalname,
           "/uploads/" ++ f.filename, env.now, sz⟩])⟩) := by
  have hne := replaceRasterExt_ne_of_raster hraster
  have hc := conv_raster_false env.conv s.disk (replaceRasterExt f.filename) hsharp
  rw [uploadHandler_raster_convFail env f s hh hne s.disk hc]
  exact createRecordAndPersist_ok env f f.filename s.disk s.df sz hsz hw

theorem C1_witness :
    uploadHandler ⟨⟨true, false, false, false, 7⟩, "id9", "t9", true⟩
        (some ⟨"b.png", "u9.png"⟩) ⟨[("u9.png", 55)], .stored []⟩ =
      (.okPainting ⟨"id9", "u9.png", "b.png", "/uploads/u9.png", "t9", 55⟩,
       ⟨[("u9.png", 55)], .stored (readPaintingsData (.stored []) ++
         [⟨"id9", "u9.png", "b.png", "/uploads/u9.png", "t9", 55⟩])⟩) :=
  C1_amended_raster_failure_keeps_original ⟨⟨true, false, false, false, 7⟩, "id9", "t9", true⟩
    ⟨"b.png", "u9.png"⟩ ⟨[("u9.png", 55)], .stored []⟩ 55
    (by decide) (by decide) rfl rfl (by decide)

/-- C7: for an accepted non-HEIF upload with persistence succeeding — when
the stored filename carries a PNG/GIF/BMP/WEBP extension (case-insensitive)
and the re-encode completes, the handler re-encodes to an output whose name
ends in `.jpg` and that output becomes the persisted filename; for any
other extension the file and its original name are kept unchanged and no
re-encode touches the disk. -/
theorem C7_raster_dispatch (env : UploadEnv) (f : UploadedFile) (s : ServerState)
    (hh : isHeicUpload f = false) (hw : env.writeOk = true) :
    (hasRasterExt f.filename = true → env.conv.sharpOk = true →
      ∃ p b, uploadHandler env (some f) s =
          (.okPainting p,
           ⟨(s.disk.writeFile (replaceRasterExt f.filename)
               env.conv.outSize).removeIfExists f.filename,
            .stored (readPaintingsData s.df ++ [p])⟩) ∧
        p.filename = replaceRasterExt f.filename ∧
        replaceRasterExt f.filename = b ++ ".jpg") ∧
    (hasRasterExt f.filename = false →
      ∀ sz : Nat, s.disk.statSize f.filename = some sz →
        uploadHandler env (some f) s =
          (.okPainting ⟨env.newId, f.filename, f.originalname,
              "/uploads/" ++ f.filename, env.now, sz⟩,
           ⟨s.disk, .stored (readPaintingsData s.df ++
             [⟨env.newId, f.filename, f.originalname,
               "/uploads/" ++ f.filename, env.now, sz⟩])⟩)) := by
  constructor
  · intro hraster hsharp
    have hne := replaceRasterExt_ne_of_raster hraster
    obtain ⟨b, hb⟩ := replaceRasterExt_ends_jpg hraster
    have hc := conv_raster_true env.conv s.disk (replaceRasterExt f.filename) hsharp
    have hstat : ((s.disk.writeFile (replaceRasterExt f.filename)
        env.conv.outSize).removeIfExists f.filename).statSize (replaceRasterExt f.filename)
        = some env.conv.outSize := by
      rw [statSize_removeIfExists_ne _ hne, statSize_writeFile_self]
    rw [uploadHandler_raster_convOk env f s hh hne _ hc,
      createRecordAndPersist_ok env f _ _ s.df env.conv.outSize hstat hw]
    exact ⟨_, b, rfl, rfl, hb⟩
  · intro hraster sz hsz
    have heq := replaceRasterExt_of_not_raster hraster
    rw [uploadHandler_noRaster env f s hh heq]
    exact createRecordAndPersist_ok env f f.filename s.disk s.df sz hsz hw

theorem C7_witness :
    ∃ p b, uploadHandler ⟨⟨true, false, false, true, 7⟩, "idw", "tw", true⟩
        (some ⟨"w.png", "uw.png"⟩) ⟨[("uw.png", 100)], .stored []⟩ =
        (.okPainting p,
         ⟨(Disk.writeFile [("uw.png", 100)] (replaceRasterExt "uw.png")
             7).removeIfExists "uw.png",
          .stored (readPaintingsData (.stored []) ++ [p])⟩) ∧
      p.filename = replaceRasterExt "uw.png" ∧ replaceRasterExt "uw.png" = b ++ ".jpg" :=
  (C7_raster_dispatch ⟨⟨true, false, false, true, 7⟩, "idw", "tw", true⟩
    ⟨"w.png", "uw.png"⟩ ⟨[("uw.png", 100)], .stored []⟩ (by decide) rfl).1 (by decide) rfl

/-- C4: every upload that is answered with success leaves, for that upload,
exactly the final file on disk — the persisted record's filename has a file
whose byte size equals the record's `size` field, and when normalization
produced a differently-named file the original ingested file has been
deleted — and the record is appended to the persisted collection. -/
theorem C4_success_unique_file_and_size (env : UploadEnv) (f : UploadedFile)
    (s : ServerState) (p : Painting)
    (h : (uploadHandler env (some f) s).1 = .okPainting p) :
    (uploadHandler env (some f) s).2.disk.statSize p.filename = some p.size ∧
    (p.filename ≠ f.filename →
      (uploadHandler env (some f) s).2.disk.existsSync f.filename = false) ∧
    readPaintingsData (uploadHandler env (some f) s).2.df
      = readPaintingsData s.df ++ [p] := by
  by_cases hh : isHeicUpload f = true
  · rcases hc : convertAndOptimizeImage env.conv s.disk
      (stripExtStr f.filename ++ ".jpg") true with ⟨ok, d2⟩
    cases ok
    · rw [uploadHandler_heic_convFail env f s hh d2 hc] at h
      exact absurd h (by simp)
    · rw [uploadHandler_heic_convOk env f s hh d2 hc] at h ⊢
      obtain ⟨hpfn, hstat, hst⟩ := createRecordAndPersist_ok_inv env f _ _ s.df p h
      rw [hst]
      exact ⟨by rw [hpfn]; exact hstat,
        fun _ => existsSync_removeIfExists_self d2 f.filename, rfl⟩
  · have hh2 : isHeicUpload f = false := by simpa using hh
    by_cases hr : replaceRasterExt f.filename = f.filename
    · rw [uploadHandler_noRaster env f s hh2 hr] at h ⊢
      obtain ⟨hpfn, hstat, hst⟩ := createRecordAndPersist_ok_inv env f _ _ s.df p h
      rw [hst]
      exact ⟨by rw [hpfn]; exact hstat, fun hne => absurd hpfn hne, rfl⟩
    · rcases hc : convertAndOptimizeImage env.conv s.disk
        (replaceRasterExt f.filename) false with ⟨ok, d2⟩
      cases ok
      · rw [uploadHandler_raster_convFail env f s hh2 hr d2 hc] at h ⊢
        obtain ⟨hpfn, hstat, hst⟩ := createRecordAndPersist_ok_inv env f _ _ s.df p h
        rw [hst]
        exact ⟨by rw [hpfn]; exact hstat, fun hne => absurd hpfn hne, rfl⟩
      · rw [uploadHandler_raster_convOk env f s hh2 hr d2 hc] at h ⊢
        obtain ⟨hpfn, hstat, hst⟩ := createRecordAndPersist_ok_inv env f _ _ s.df p h
        rw [hst]
        exact ⟨by rw [hpfn]; exact hstat,
          fun _ => existsSync_removeIfExists_self d2 f.filename, rfl⟩

theorem C4_witness :
    (uploadHandler ⟨⟨true, false, false, true, 7⟩, "id4", "t4", true⟩
        (some ⟨"a.jpg", "u4.jpg"⟩) ⟨[("u4.jpg", 42)], .stored []⟩).2.disk.statSize
      "u4.jpg" = some 42 ∧
    ("u4.jpg" ≠ "u4.jpg" →
      (uploadHandler ⟨⟨true, false, false, true, 7⟩, "id4", "t4", true⟩
          (some ⟨"a.jpg", "u4.jpg"⟩) ⟨[("u4.jpg", 42)], .stored []⟩).2.disk.existsSync
        "u4.jpg" = false) ∧
    readPaintingsData (uploadHandler ⟨⟨true, false, false, true, 7⟩, "id4", "t4", true⟩
        (some ⟨"a.jpg", "u4.jpg"⟩) ⟨[("u4.jpg", 42)], .stored []⟩).2.df
      = readPaintingsData (.stored []) ++
        [⟨"id4", "u4.jpg", "a.jpg", "/uploads/u4.jpg", "t4", 42⟩] :=
  C4_success_unique_file_and_size ⟨⟨true, false, false, true, 7⟩, "id4", "t4", true⟩
    ⟨"a.jpg", "u4.jpg"⟩ ⟨[("u4.jpg", 42)], .stored []⟩
    ⟨"id4", "u4.jpg", "a.jpg", "/uploads/u4.jpg", "t4", 42⟩ (by decide)

/-- C5: when persisting the metadata collection fails, the record-creation
step answers 500 with the save-failure error, deletes the final file, and
leaves the metadata file unchanged; consequently an upload whose metadata
write fails is always answered with a 500 status and never changes the
persisted collection. -/
theorem C5_persist_failure_rolls_back (env : UploadEnv) (hw : env.writeOk = false) :
    (∀ (f : UploadedFile) (final : String) (disk : Disk) (df : DataFile) (sz : Nat),
      disk.statSize final = some sz →
        (createRecordAndPersist env f final disk df).1 = .serverError "保存画作信息失败" ∧
        (createRecordAndPersist env f final disk df).2.disk.existsSync final = false ∧
        (createRecordAndPersist env f final disk df).2.df = df) ∧
    (∀ (f : UploadedFile) (s : ServerState),
      statusOf (uploadHandler env (some f) s).1 = 500 ∧
      (uploadHandler env (some f) s).2.df = s.df) := by
  constructor
  · intro f final disk df sz hsz
    rw [createRecordAndPersist_writeFail env f final disk df sz hsz hw]
    exact ⟨rfl, existsSync_removeIfExists_self disk final, rfl⟩
  · intro f s
    by_cases hh : isHeicUpload f = true
    · rcases hc : convertAndOptimizeImage env.conv s.disk
        (stripExtStr f.filename ++ ".jpg") true with ⟨ok, d2⟩
      cases ok
      · rw [uploadHandler_heic_convFail env f s hh d2 hc]
        exact ⟨rfl, rfl⟩
      · rw [uploadHandler_heic_convOk env f s hh d2 hc]
        exact createRecordAndPersist_df_writeFail env f _ _ s.df hw
    · have hh2 : isHeicUpload f = false := by simpa using hh
      by_cases hr : replaceRasterExt f.filename = f.filename
      · rw [uploadHandler_noRaster env f s hh2 hr]
        exact createRecordAndPersist_df_writeFail env f _ _ s.df hw
      · rcases hc : convertAndOptimizeImage env.conv s.disk
          (replaceRasterExt f.filename) false with ⟨ok, d2⟩
        cases ok
        · rw [uploadHandler_raster_convFail env f s hh2 hr d2 hc]
          exact createRecordAndPersist_df_writeFail env f _ _ s.df hw
        · rw [uploadHandler_raster_convOk env f s hh2 hr d2 hc]
          exact createRecordAndPersist_df_writeFail env f _ _ s.df hw

theorem C5_witness :
    ((createRecordAndPersist ⟨⟨true, false, false, true, 7⟩, "id5", "t5", false⟩
        ⟨"a.jpg", "u5.jpg"⟩ "u5.jpg" [("u5.jpg", 9)] (.stored [])).1
      = .serverError "保存画作信息失败" ∧
     (createRecordAndPersist ⟨⟨true, false, false, true, 7⟩, "id5", "t5", false⟩
        ⟨"a.jpg", "u5.jpg"⟩ "u5.jpg" [("u5.jpg", 9)] (.stored [])).2.disk.existsSync
       "u5.jpg" = false ∧
     (createRecordAndPersist ⟨⟨true, false, false, true, 7⟩, "id5", "t5", false⟩
        ⟨"a.jpg", "u5.jpg"⟩ "u5.jpg" [("u5.jpg", 9)] (.stored [])).2.df
       = DataFile.stored []) ∧
    (statusOf (uploadHandler ⟨⟨true, false, false, true, 7⟩, "id5", "t5", false⟩
        (some ⟨"a.jpg", "u5.jpg"⟩) ⟨[("u5.jpg", 9)], .stored []⟩).1 = 500 ∧
     (uploadHandler ⟨⟨true, false, false, true, 7⟩, "id5", "t5", false⟩
        (some ⟨"a.jpg", "u5.jpg"⟩) ⟨[("u5.jpg", 9)], .stored []⟩).2.df
       = DataFile.stored []) :=
  ⟨(C5_persist_failure_rolls_back ⟨⟨true, false, false, true, 7⟩, "id5", "t5", false⟩ rfl).1
      ⟨"a.jpg", "u5.jpg"⟩ "u5.jpg" [("u5.jpg", 9)] (.stored []) 9 (by decide),
   (C5_persist_failure_rolls_back ⟨⟨true, false, false, true, 7⟩, "id5", "t5", false⟩ rfl).2
      ⟨"a.jpg", "u5.jpg"⟩ ⟨[("u5.jpg", 9)], .stored []⟩⟩

theorem readPaintingsData_stored (ps : List Painting) :
    readPaintingsData (.stored ps) = ps := rfl

theorem putUpdated_none (p : Painting) : putUpdated none p = p := rfl

theorem putUpdated_empty (p : Painting) : putUpdated (some "") p = p := by
  simp [putUpdated]

theorem putUpdated_some {dd : String} (h : dd ≠ "") (p : Painting) :
    putUpdated (some dd) p = { p with date := dd } := by
  simp [putUpdated, h]

/-- C2 counterexample: a delete whose metadata write fails first unlinks the
backing file and then keeps the old collection, leaving a persisted record
whose file has been removed — the claimed invariant is not preserved by
every operation. -/
theorem C2_counterexample :
    filesIntact ⟨[("f1.jpg", 5)],
        .stored [⟨"p1", "f1.jpg", "o1", "/uploads/f1.jpg", "t0", 5⟩]⟩ = true ∧
    (deleteHandler false "p1" ⟨[("f1.jpg", 5)],
        .stored [⟨"p1", "f1.jpg", "o1", "/uploads/f1.jpg", "t0", 5⟩]⟩).1
      = .serverError "删除画作信息失败" ∧
    readPaintingsData (deleteHandler false "p1" ⟨[("f1.jpg", 5)],
        .stored [⟨"p1", "f1.jpg", "o1", "/uploads/f1.jpg", "t0", 5⟩]⟩).2.df
      = [⟨"p1", "f1.jpg", "o1", "/uploads/f1.jpg", "t0", 5⟩] ∧
    (deleteHandler false "p1" ⟨[("f1.jpg", 5)],
        .stored [⟨"p1", "f1.jpg", "o1", "/uploads/f1.jpg", "t0", 5⟩]⟩).2.disk.existsSync
      "f1.jpg" = false ∧
    filesIntact (deleteHandler false "p1" ⟨[("f1.jpg", 5)],
        .stored [⟨"p1", "f1.jpg", "o1", "/uploads/f1.jpg", "t0", 5⟩]⟩).2 = false := by
  decide

/-- C2 amended: upload (with its generated names fresh) and update preserve
the records-backed-by-files invariant, and delete preserves it whenever the
metadata write succeeds (record filenames being unique); only a delete
whose persistence write fails can leave a record whose backing file has
been removed. -/
theorem C2_amended_invariant_preservation (s : ServerState) (hI : filesIntact s = true) :
    (∀ (env : UploadEnv) (f : UploadedFile),
      (∀ p ∈ readPaintingsData s.df,
        p.filename ≠ f.filename ∧ p.filename ≠ stripExtStr f.filename ++ ".jpg" ∧
          p.filename ≠ replaceRasterExt f.filename) →
      filesIntact (uploadHandler env (some f) s).2 = true) ∧
    (∀ (w : Bool) (pid : String) (d : Option String),
      filesIntact (putHandler w pid d s).2 = true) ∧
    (∀ pid : String, ((readPaintingsData s.df).map Painting.filename).Nodup →
      filesIntact (deleteHandler true pid s).2 = true) := by
  have hex0 : ∀ p ∈ readPaintingsData s.df, s.disk.existsSync p.filename = true := by
    simpa only [filesIntact, List.all_eq_true] using hI
  refine ⟨?_, ?_, ?_⟩
  · intro env f hfresh
    by_cases hh : isHeicUpload f = true
    · rcases hc : convertAndOptimizeImage env.conv s.disk
        (stripExtStr f.filename ++ ".jpg") true with ⟨ok, d2⟩
      cases ok
      · rw [uploadHandler_heic_convFail env f s hh d2 hc]
        have hd2 := conv_pair_false env.conv s.disk _ true d2 hc
        subst hd2
        simp only [filesIntact, List.all_eq_true]
        intro p hp
        rw [existsSync_removeIfExists_ne s.disk (hfresh p hp).1]
        exact hex0 p hp
      · rw [uploadHandler_heic_convOk env f s hh d2 hc]
        have hd2 := conv_pair_true env.conv s.disk _ true d2 hc
        subst hd2
        apply createRecordAndPersist_intact
        · intro p hp
          rw [existsSync_removeIfExists_ne _ (hfresh p hp).1]
          exact existsSync_writeFile_mono s.disk _ _ (hex0 p hp)
        · intro p hp
          exact (hfresh p hp).2.1
        · intro p hp
          exact (hfresh p hp).1
    · have hh2 : isHeicUpload f = false := by simpa using hh
      by_cases hr : replaceRasterExt f.filename = f.filename
      · rw [uploadHandler_noRaster env f s hh2 hr]
        apply createRecordAndPersist_intact
        · exact hex0
        · intro p hp
          exact (hfresh p hp).1
        · intro p hp
          exact (hfresh p hp).1
      · rcases hc : convertAndOptimizeImage env.conv s.disk
          (replaceRasterExt f.filename) false with ⟨ok, d2⟩
        cases ok
        · rw [uploadHandler_raster_convFail env f s hh2 hr d2 hc]
          have hd2 := conv_pair_false env.conv s.disk _ false d2 hc
          subst hd2
          apply createRecordAndPersist_intact
          · exact hex0
          · intro p hp
            exact (hfresh p hp).1
          · intro p hp
            exact (hfresh p hp).1
        · rw [uploadHandler_raster_convOk env f s hh2 hr d2 hc]
          have hd2 := conv_pair_true env.conv s.disk _ false d2 hc
          subst hd2
          apply createRecordAndPersist_intact
          · intro p hp
            rw [existsSync_removeIfExists_ne _ (hfresh p hp).1]
            exact existsSync_writeFile_mono s.disk _ _ (hex0 p hp)
          · intro p hp
            exact (hfresh p hp).2.2
          · intro p hp
            exact (hfresh p hp).1
  · intro w pid d
    by_cases h : (readPaintingsData s.df).findIdx (fun p => decide (p.id = pid))
        < (readPaintingsData s.df).length
    · cases w
      · rw [putHandler_found_false pid d s h]
        exact hI
      · rw [putHandler_found_true pid d s h]
        simp only [filesIntact, List.all_eq_true, readPaintingsData_stored]
        intro q hq
        rcases List.mem_or_eq_of_mem_set hq with hq2 | hq2
        · exact hex0 q hq2
        · subst hq2
          rw [putUpdated_filename]
          exact hex0 _ (List.get_mem _ _ _)
    · rw [putHandler_notFound w pid d s h]
      exact hI
  · intro pid hnd
    by_cases h : (readPaintingsData s.df).findIdx (fun p => decide (p.id = pid))
        < (readPaintingsData s.df).length
    · rw [deleteHandler_found_true pid s h]
      simp only [filesIntact, List.all_eq_true, readPaintingsData_stored]
      intro q hq
      have hqmem : q ∈ readPaintingsData s.df := List.mem_of_mem_eraseIdx hq
      have hne := map_nodup_eraseIdx_ne Painting.filename (readPaintingsData s.df) _ h hnd q hq
      rw [existsSync_removeIfExists_ne s.disk hne]
      exact hex0 q hqmem
    · rw [deleteHandler_notFound true pid s h]
      exact hI

theorem C2_witness :
    filesIntact (uploadHandler ⟨⟨true, false, false, true, 7⟩, "idc", "tc", true⟩
        (some ⟨"x.png", "ux.png"⟩)
        ⟨[("f0.jpg", 3)], .stored [⟨"p0", "f0.jpg", "o0", "/uploads/f0.jpg", "t0", 3⟩]⟩).2
      = true ∧
    filesIntact (putHandler false "p0" (some "2030-01-01")
        ⟨[("f0.jpg", 3)], .stored [⟨"p0", "f0.jpg", "o0", "/uploads/f0.jpg", "t0", 3⟩]⟩).2
      = true ∧
    filesIntact (deleteHandler true "p0"
        ⟨[("f0.jpg", 3)], .stored [⟨"p0", "f0.jpg", "o0", "/uploads/f0.jpg", "t0", 3⟩]⟩).2
      = true :=
  ⟨(C2_amended_invariant_preservation
      ⟨[("f0.jpg", 3)], .stored [⟨"p0", "f0.jpg", "o0", "/uploads/f0.jpg", "t0", 3⟩]⟩
      (by decide)).1 ⟨⟨true, false, false, true, 7⟩, "idc", "tc", true⟩
      ⟨"x.png", "ux.png"⟩ (by decide),
   (C2_amended_invariant_preservation
      ⟨[("f0.jpg", 3)], .stored [⟨"p0", "f0.jpg", "o0", "/uploads/f0.jpg", "t0", 3⟩]⟩
      (by decide)).2.1 false "p0" (some "2030-01-01"),
   (C2_amended_invariant_preservation
      ⟨[("f0.jpg", 3)], .stored [⟨"p0", "f0.jpg", "o0", "/uploads/f0.jpg", "t0", 3⟩]⟩
      (by decide)).2.2 "p0" (by decide)⟩

/-- C9: for an id present in the collection (ids unique) with the
persistence write succeeding, DELETE answers success, removes exactly that
record from the persisted collection, removes its backing file from the
uploads directory, and a subsequent GET of that id answers 404 not-found. -/
theorem C9_delete_removes_record_and_file (pid : String) (s : ServerState)
    (hnd : ((readPaintingsData s.df).map Painting.id).Nodup)
    (hmem : ∃ p ∈ readPaintingsData s.df, p.id = pid) :
    ∃ h : (readPaintingsData s.df).findIdx (fun p => decide (p.id = pid))
        < (readPaintingsData s.df).length,
      (deleteHandler true pid s).1 = .okMsg "画作删除成功" ∧
      readPaintingsData (deleteHandler true pid s).2.df
        = (readPaintingsData s.df).eraseIdx
            ((readPaintingsData s.df).findIdx (fun p => decide (p.id = pid))) ∧
      (deleteHandler true pid s).2.disk.existsSync
        ((readPaintingsData s.df).get
          ⟨(readPaintingsData s.df).findIdx (fun p => decide (p.id = pid)), h⟩).filename
        = false ∧
      getPaintingHandler pid (deleteHandler true pid s).2 = .notFound "画作不存在" := by
  have h : (readPaintingsData s.df).findIdx (fun p => decide (p.id = pid))
      < (readPaintingsData s.df).length :=
    List.findIdx_lt_length_of_exists (by simpa using hmem)
  refine ⟨h, ?_, ?_, ?_, ?_⟩
  · rw [deleteHandler_found_true pid s h]
  · rw [deleteHandler_found_true pid s h]
    rfl
  · rw [deleteHandler_found_true pid s h]
    exact existsSync_removeIfExists_self _ _
  · rw [deleteHandler_found_true pid s h]
    have hPid : ((readPaintingsData s.df).get
        ⟨(readPaintingsData s.df).findIdx (fun p => decide (p.id = pid)), h⟩).id = pid := by
      have hp := @List.findIdx_getElem _ (fun p => decide (p.id = pid))
        (readPaintingsData s.df) h
      simpa using hp
    have hnone : ((readPaintingsData s.df).eraseIdx
        ((readPaintingsData s.df).findIdx (fun p => decide (p.id = pid)))).find?
        (fun p => decide (p.id = pid)) = none := by
      rw [List.find?_eq_none]
      intro x hx
      simp only [decide_eq_true_eq]
      intro hxid
      exact map_nodup_eraseIdx_ne Painting.id (readPaintingsData s.df) _ h hnd x hx
        (by rw [hxid, hPid])
    simp [getPaintingHandler, readPaintingsData_stored, hnone]

theorem C9_witness :
    ∃ h : (readPaintingsData (DataFile.stored
        [⟨"p9", "f9.jpg", "o9", "/uploads/f9.jpg", "t9", 4⟩])).findIdx
          (fun p => decide (p.id = "p9"))
        < (readPaintingsData (DataFile.stored
            [⟨"p9", "f9.jpg", "o9", "/uploads/f9.jpg", "t9", 4⟩])).length,
      (deleteHandler true "p9" ⟨[("f9.jpg", 4)],
          .stored [⟨"p9", "f9.jpg", "o9", "/uploads/f9.jpg", "t9", 4⟩]⟩).1
        = .okMsg "画作删除成功" ∧
      readPaintingsData (deleteHandler true "p9" ⟨[("f9.jpg", 4)],
          .stored [⟨"p9", "f9.jpg", "o9", "/uploads/f9.jpg", "t9", 4⟩]⟩).2.df
        = (readPaintingsData (DataFile.stored
            [⟨"p9", "f9.jpg", "o9", "/uploads/f9.jpg", "t9", 4⟩])).eraseIdx
            ((readPaintingsData (DataFile.stored
              [⟨"p9", "f9.jpg", "o9", "/uploads/f9.jpg", "t9", 4⟩])).findIdx
              (fun p => decide (p.id = "p9"))) ∧
      (deleteHandler true "p9" ⟨[("f9.jpg", 4)],
          .stored [⟨"p9", "f9.jpg", "o9", "/uploads/f9.jpg", "t9", 4⟩]⟩).2.disk.existsSync
        ((readPaintingsData (DataFile.stored
            [⟨"p9", "f9.jpg", "o9", "/uploads/f9.jpg", "t9", 4⟩])).get
          ⟨(readPaintingsData (DataFile.stored
              [⟨"p9", "f9.jpg", "o9", "/uploads/f9.jpg", "t9", 4⟩])).findIdx
              (fun p => decide (p.id = "p9")), h⟩).filename = false ∧
      getPaintingHandler "p9" (deleteHandler true "p9" ⟨[("f9.jpg", 4)],
          .stored [⟨"p9", "f9.jpg", "o9", "/uploads/f9.jpg", "t9", 4⟩]⟩).2
        = .notFound "画作不存在" :=
  C9_delete_removes_record_and_file "p9"
    ⟨[("f9.jpg", 4)], .stored [⟨"p9", "f9.jpg", "o9", "/uploads/f9.jpg", "t9", 4⟩]⟩
    (by decide) (by decide)

/-- C10: for an id present in the collection with persistence succeeding,
PUT with a missing or falsy `date` answers success and leaves every record
unchanged; with a truthy `date` it stores the supplied string verbatim
(no format validation) in the targeted record's `date` field, changing no
other field and no other record; the uploads directory is untouched. -/
theorem C10_put_date_frame (pid : String) (s : ServerState)
    (hmem : ∃ p ∈ readPaintingsData s.df, p.id = pid) :
    ∃ h : (readPaintingsData s.df).findIdx (fun p => decide (p.id = pid))
        < (readPaintingsData s.df).length,
      (∀ d : Option String, d = none ∨ d = some "" →
        (putHandler true pid d s).1 = .okPainting ((readPaintingsData s.df).get
            ⟨(readPaintingsData s.df).findIdx (fun p => decide (p.id = pid)), h⟩) ∧
        readPaintingsData (putHandler true pid d s).2.df = readPaintingsData s.df ∧
        (putHandler true pid d s).2.disk = s.disk) ∧
      (∀ dd : String, dd ≠ "" →
        (putHandler true pid (some dd) s).1
          = .okPainting { (readPaintingsData s.df).get
              ⟨(readPaintingsData s.df).findIdx (fun p => decide (p.id = pid)), h⟩
              with date := dd } ∧
        readPaintingsData (putHandler true pid (some dd) s).2.df
          = (readPaintingsData s.df).set
              ((readPaintingsData s.df).findIdx (fun p => decide (p.id = pid)))
              { (readPaintingsData s.df).get
                ⟨(readPaintingsData s.df).findIdx (fun p => decide (p.id = pid)), h⟩
                with date := dd } ∧
        (putHandler true pid (some dd) s).2.disk = s.disk) := by
  have h : (readPaintingsData s.df).findIdx (fun p => decide (p.id = pid))
      < (readPaintingsData s.df).length :=
    List.findIdx_lt_length_of_exists (by simpa using hmem)
  refine ⟨h, ?_, ?_⟩
  · rintro d (rfl | rfl)
    · rw [putHandler_found_true pid none s h]
      simp only [putUpdated_none, readPaintingsData_stored]
      refine ⟨by trivial, set_get_self _ _ h, by trivial⟩
    · rw [putHandler_found_true pid (some "") s h]
      simp only [putUpdated_empty, readPaintingsData_stored]
      refine ⟨by trivial, set_get_self _ _ h, by trivial⟩
  · intro dd hdd
    rw [putHandler_found_true pid (some dd) s h]
    simp only [putUpdated_some hdd, readPaintingsData_stored]
    refine ⟨by trivial, by trivial, by trivial⟩

theorem C10_witness :
    (putHandler true "pa" (some "not-a-date")
        ⟨[], .stored [⟨"pa", "fa.jpg", "oa", "/uploads/fa.jpg", "t0", 1⟩]⟩).1
      = .okPainting ⟨"pa", "fa.jpg", "oa", "/uploads/fa.jpg", "not-a-date", 1⟩ ∧
    (putHandler true "pa" none
        ⟨[], .stored [⟨"pa", "fa.jpg", "oa", "/uploads/fa.jpg", "t0", 1⟩]⟩).1
      = .okPainting ⟨"pa", "fa.jpg", "oa", "/uploads/fa.jpg", "t0", 1⟩ := by
  obtain ⟨h, ha, hb⟩ := C10_put_date_frame "pa"
    ⟨[], .stored [⟨"pa", "fa.jpg", "oa", "/uploads/fa.jpg", "t0", 1⟩]⟩ (by decide)
  exact ⟨(hb "not-a-date" (by decide)).1, (ha none (Or.inl rfl)).1⟩

/-- C6 counterexample: the filter rejects a file whose name carries the
recognized image extension `.png` when its declared media type is not an
image type, although the claim admits every recognized image extension;
moreover a rejected file is answered with the generic 500 server error of
the error middleware (the filter's plain `Error` is not a `MulterError`),
not with a client error. -/
theorem C6_counterexample :
    fileFilterAccepts "a.png" "application/octet-stream" = false ∧
    specRecognizedImageExt (lowerStr (extname "a.png")) = true ∧
    (ingestAndUpload ⟨⟨true, false, false, true, 7⟩, "id6", "t6", true⟩ "text/plain"
        ⟨"notes.txt", "u6.txt"⟩ ⟨[], .stored []⟩).1 = .serverError "服务器内部错误" ∧
    statusOf (ingestAndUpload ⟨⟨true, false, false, true, 7⟩, "id6", "t6", true⟩ "text/plain"
        ⟨"notes.txt", "u6.txt"⟩ ⟨[], .stored []⟩).1 = 500 := by
  decide

/-- C6 amended: the ingest filter accepts a file exactly when its declared
media type starts with `image/` or its filename extension is `.heic` or
`.heif` (case-insensitive); every other file is rejected before the upload
handler runs — with the generic 500 of the error middleware, the server
state unchanged and no record created. -/
theorem C6_amended_filter (env : UploadEnv) (mime : String) (f : UploadedFile)
    (s : ServerState) :
    (fileFilterAccepts f.originalname mime = true ↔
      (strStartsWith "image/" mime = true ∨ lowerStr (extname f.originalname) = ".heic" ∨
        lowerStr (extname f.originalname) = ".heif")) ∧
    (fileFilterAccepts f.originalname mime = false →
      ingestAndUpload env mime f s = (.serverError "服务器内部错误", s) ∧
      statusOf (ingestAndUpload env mime f s).1 = 500) := by
  constructor
  · simp only [fileFilterAccepts, Bool.or_eq_true, decide_eq_true_eq]
    tauto
  · intro hrej
    have : ingestAndUpload env mime f s = (.serverError "服务器内部错误", s) := by
      unfold ingestAndUpload
      rw [if_neg (by simp [hrej])]
    refine ⟨this, ?_⟩
    rw [this]
    rfl

theorem C6_witness :
    ingestAndUpload ⟨⟨true, false, false, true, 7⟩, "id6b", "t6b", true⟩ "text/html"
        ⟨"page.html", "u6b.html"⟩ ⟨[], .stored []⟩
      = (.serverError "服务器内部错误", ⟨[], .stored []⟩) ∧
    statusOf (ingestAndUpload ⟨⟨true, false, false, true, 7⟩, "id6b", "t6b", true⟩
        "text/html" ⟨"page.html", "u6b.html"⟩ ⟨[], .stored []⟩).1 = 500 :=
  (C6_amended_filter ⟨⟨true, false, false, true, 7⟩, "id6b", "t6b", true⟩ "text/html"
    ⟨"page.html", "u6b.html"⟩ ⟨[], .stored []⟩).2 (by decide)

end Gallery
